import Mathlib

/-!
Shallow embedding of the CPF calculator core of `src/pages/page2.py`
(Singapore CPF Contribution Calculator).

Python floats are modelled by exact rationals `ℚ`; Python's `round(x, 2)`
(round-half-to-even at two decimal places) is modelled by `round2` below.
Python `dict` lookups that may raise `KeyError` are modelled by
`Option`-valued tables.  `datetime.date` is modelled by the `Date`
structure; the wall-clock read `datetime.date.today()` inside
`get_age_group` is made an explicit `today` parameter.
-/

namespace NEWCPF

/-- Wage ceiling constants from `page2.py`. -/
def ORDINARY_WAGES_CEILING : ℚ := 6000
def ADDITIONAL_WAGES_CEILING : ℚ := 102000
def TOTAL_WAGES_CEILING : ℚ := 102000

/-- CPF Life milestone constants. -/
def BRS_2024 : ℚ := 102000
def FRS_2024 : ℚ := 198800
def ERS_2024 : ℚ := 298800

/-- The `CPF_RATES` dict: age band ↦ (total rate, employee rate, employer rate).
`none` models a `KeyError` on a missing band. -/
def CPF_RATES (age_group : String) : Option (ℚ × ℚ × ℚ) :=
  if age_group = "35 years and below" then some (0.37, 0.20, 0.17)
  else if age_group = "Above 35 to 45 years" then some (0.37, 0.20, 0.17)
  else if age_group = "Above 45 to 50 years" then some (0.37, 0.20, 0.17)
  else if age_group = "Above 50 to 55 years" then some (0.37, 0.20, 0.17)
  else if age_group = "Above 55 to 60 years" then some (0.26, 0.13, 0.13)
  else if age_group = "Above 60 to 65 years" then some (0.165, 0.085, 0.08)
  else if age_group = "Above 65 years" then some (0.125, 0.075, 0.05)
  else none

/-- The `ALLOCATIONS` dict: age band ↦ (medisave share, special share, ordinary share). -/
def ALLOCATIONS (age_group : String) : Option (ℚ × ℚ × ℚ) :=
  if age_group = "35 years and below" then some (0.08108, 0.23243, 0.68649)
  else if age_group = "Above 35 to 45 years" then some (0.08108, 0.23243, 0.68649)
  else if age_group = "Above 45 to 50 years" then some (0.08108, 0.23243, 0.68649)
  else if age_group = "Above 50 to 55 years" then some (0.08108, 0.23243, 0.68649)
  else if age_group = "Above 55 to 60 years" then some (0.10577, 0.13462, 0.75961)
  else if age_group = "Above 60 to 65 years" then some (0.12121, 0.03030, 0.84849)
  else if age_group = "Above 65 years" then some (0.16000, 0.00000, 0.84000)
  else none

/-- The seven band strings, in the order they appear in the tables. -/
def sevenBands : List String :=
  ["35 years and below", "Above 35 to 45 years", "Above 45 to 50 years",
   "Above 50 to 55 years", "Above 55 to 60 years", "Above 60 to 65 years",
   "Above 65 years"]

/-- Round-half-to-even to the nearest integer, the tie-breaking rule of
Python's built-in `round`. -/
def rndHE (x : ℚ) : ℤ :=
  if x - ⌊x⌋ < 1/2 then ⌊x⌋
  else if 1/2 < x - ⌊x⌋ then ⌊x⌋ + 1
  else if ⌊x⌋ % 2 = 0 then ⌊x⌋ else ⌊x⌋ + 1

/-- Python's `round(x, 2)` under exact rational arithmetic. -/
def round2 (x : ℚ) : ℚ := (rndHE (100 * x) : ℚ) / 100

/-- Model of `datetime.date`: a (year, month, day) triple.  Python compares
`(month, day)` tuples lexicographically. -/
structure Date where
  year : ℤ
  month : ℤ
  day : ℤ
deriving DecidableEq

/-- The integer age computed on line 64 of `page2.py`:
`today.year - birth_date.year - ((today.month, today.day) < (birth_date.month, birth_date.day))`,
with the Python lexicographic tuple comparison spelt out and the boolean
coerced to `0`/`1`. -/
def age_on (today : Date) (birth_date : Date) : ℤ :=
  today.year - birth_date.year -
    (if today.month < birth_date.month ∨
        (today.month = birth_date.month ∧ today.day < birth_date.day)
     then 1 else 0)

/-- Function `get_age_group` from `page2.py`, with the `datetime.date.today()` read
made an explicit first argument. -/
def get_age_group (today : Date) (birth_date : Date) : String :=
  let age : ℤ := age_on today birth_date
  if age ≤ 35 then "35 years and below"
  else if age ≤ 45 then "Above 35 to 45 years"
  else if age ≤ 50 then "Above 45 to 50 years"
  else if age ≤ 55 then "Above 50 to 55 years"
  else if age ≤ 60 then "Above 55 to 60 years"
  else if age ≤ 65 then "Above 60 to 65 years"
  else "Above 65 years"

/-- Function `calculate_contributions` from `page2.py`.  The `CPF_RATES[age_group]`
dict access is the `Option` bind; everything after it is the straight-line
arithmetic of the source. -/
def calculate_contributions (ordinary_wages additional_wages : ℚ)
    (age_group : String) (total_wages_ytd : ℚ) : Option (ℚ × ℚ × ℚ) :=
  (CPF_RATES age_group).map fun r =>
    let rate := r.1
    let employee_rate := r.2.1
    let remaining_ceiling := max 0 (TOTAL_WAGES_CEILING - total_wages_ytd)
    let capped_ordinary_wages := min ordinary_wages ORDINARY_WAGES_CEILING
    let remaining_aw_ceiling := max 0 (remaining_ceiling - capped_ordinary_wages)
    let capped_additional_wages := min additional_wages remaining_aw_ceiling
    let total_cpf := rate * capped_ordinary_wages + rate * capped_additional_wages
    let employee_share :=
      employee_rate * capped_ordinary_wages + employee_rate * capped_additional_wages
    (total_cpf, employee_share, total_cpf - employee_share)

/-- Function `calculate_allocations` from `page2.py`: the `total_cpf ≤ 0` guard
returns all zeros before any table access; otherwise medisave and special
amounts are rounded products and the ordinary amount is the rounded
remainder. -/
def calculate_allocations (total_cpf : ℚ) (age_group : String) :
    Option (ℚ × ℚ × ℚ) :=
  if total_cpf ≤ 0 then some (0, 0, 0)
  else (ALLOCATIONS age_group).map fun r =>
    let medisave_allocation := round2 (r.1 * total_cpf)
    let special_allocation := round2 (r.2.1 * total_cpf)
    let ordinary_allocation :=
      round2 (total_cpf - medisave_allocation - special_allocation)
    (medisave_allocation, special_allocation, ordinary_allocation)

/-- The three per-account nominal annual interest rates.  The Python default
argument is `{"OA": 0.025, "SA": 0.04, "MA": 0.04}`. -/
structure InterestRates where
  OA : ℚ
  SA : ℚ
  MA : ℚ

def defaultInterestRates : InterestRates := ⟨0.025, 0.04, 0.04⟩

/-- One monthly snapshot appended to `monthly_data` by the projection loop. -/
structure Snapshot where
  OA : ℚ
  SA : ℚ
  MA : ℚ
  Total : ℚ
  Months : ℕ
deriving DecidableEq

/-- The mutable loop state of `calculate_future_balance`: the three balances
and the (increment-adjusted) monthly contribution. -/
structure ProjState where
  oa_balance : ℚ
  sa_balance : ℚ
  ma_balance : ℚ
  monthly_contribution : ℚ
deriving DecidableEq

/-- The per-month allocation split hard-coded inside the projection loop
(lines 220-222 of `page2.py`): returns
(`oa_contribution`, `sa_contribution`, `ma_contribution`). -/
def monthlySplit (monthly_contribution : ℚ) : ℚ × ℚ × ℚ :=
  (monthly_contribution * 0.68649,
   monthly_contribution * 0.23243,
   monthly_contribution * 0.08108)

/-- One iteration of the `for month in range(years * 12)` loop body. -/
def projStep (rates : InterestRates) (annual_increment : ℚ) (month : ℕ)
    (s : ProjState) : ProjState :=
  let mc := if month % 12 = 0 ∧ 0 < month
            then s.monthly_contribution * (1 + annual_increment)
            else s.monthly_contribution
  let split := monthlySplit mc
  { oa_balance := (s.oa_balance + split.1) * (1 + rates.OA / 12)
    sa_balance := (s.sa_balance + split.2.1) * (1 + rates.SA / 12)
    ma_balance := (s.ma_balance + split.2.2) * (1 + rates.MA / 12)
    monthly_contribution := mc }

/-- The state after running the loop body `fuel` times starting at month
index `month`. -/
def projIter (rates : InterestRates) (annual_increment : ℚ) :
    ℕ → ℕ → ProjState → ProjState
  | _, 0, s => s
  | month, fuel + 1, s =>
      projIter rates annual_increment (month + 1) fuel
        (projStep rates annual_increment month s)

/-- The list of snapshots recorded by running the loop body `fuel` times
starting at month index `month`. -/
def projLoop (rates : InterestRates) (annual_increment : ℚ) :
    ℕ → ℕ → ProjState → List Snapshot
  | _, 0, _ => []
  | month, fuel + 1, s =>
      let s' := projStep rates annual_increment month s
      { OA := s'.oa_balance, SA := s'.sa_balance, MA := s'.ma_balance,
        Total := s'.oa_balance + s'.sa_balance + s'.ma_balance,
        Months := month } ::
      projLoop rates annual_increment (month + 1) fuel s'

/-- Function `calculate_future_balance` from `page2.py`: all three balances start at
`0`, the contribution starts at `current_contribution`, and the loop runs
for `years * 12` months. -/
def calculate_future_balance (current_contribution : ℚ) (years : ℕ)
    (annual_increment : ℚ) (interest_rates : InterestRates) : List Snapshot :=
  projLoop interest_rates annual_increment 0 (years * 12)
    ⟨0, 0, 0, current_contribution⟩

/-- The milestone solver's result: the Python code returns either the string
"Already achieved", the string "Cannot be achieved with current
contribution", or a float number of years. -/
inductive MilestoneResult where
  | alreadyAchieved
  | unreachable
  | years (y : ℝ)

/-- Round-half-to-even to the nearest integer over `ℝ` (Python `round`). -/
noncomputable def rndHE_R (x : ℝ) : ℤ :=
  if x - ⌊x⌋ < 1/2 then ⌊x⌋
  else if 1/2 < x - ⌊x⌋ then ⌊x⌋ + 1
  else if ⌊x⌋ % 2 = 0 then ⌊x⌋ else ⌊x⌋ + 1

/-- Python's `round(x, 1)` over `ℝ`. -/
noncomputable def round1 (x : ℝ) : ℝ := (rndHE_R (10 * x) : ℝ) / 10

/-- The inner `years_to_target` closure of `calculate_milestones`.  Note
that the closure tests and uses the captured variable
`monthly_sa_contribution`, not its own third parameter `monthly` (which both
call sites bind to the same value); the embedding keeps the unused
parameter.  `np.log` over positive reals is `Real.log`; in this real-valued
model the closed form is total, so the `try/except` catch is represented by
the surrounding `[0, 100]` sanity clamp alone. -/
noncomputable def years_to_target (monthly_sa_contribution : ℚ)
    (target current _monthly : ℚ) : MilestoneResult :=
  if target ≤ current then .alreadyAchieved
  else if monthly_sa_contribution ≤ 0 then .unreachable
  else
    let remaining : ℚ := target - current
    let r_monthly : ℝ := (0.04 : ℝ) / 12
    let n_months : ℝ :=
      Real.log (1 + ((remaining : ℝ) * r_monthly) / (monthly_sa_contribution : ℚ)) /
        Real.log (1 + r_monthly)
    let years := n_months / 12
    if years < 0 ∨ 100 < years then .unreachable
    else .years (round1 years)

/-- The `current_balance` dict handed to `calculate_milestones` by `main`. -/
structure Balances where
  OA : ℚ
  SA : ℚ
  MA : ℚ

/-- Function `calculate_milestones` from `page2.py`: looks up the special-account
allocation share for the band, forms the monthly SA contribution, and runs
the solver for the BRS and FRS targets on the current SA balance. -/
noncomputable def calculate_milestones (current_balance : Balances)
    (monthly_contribution : ℚ) (age_group : String) :
    Option (MilestoneResult × MilestoneResult) :=
  (ALLOCATIONS age_group).map fun r =>
    let sa_allocation_rate := r.2.1
    let monthly_sa_contribution := monthly_contribution * sa_allocation_rate
    (years_to_target monthly_sa_contribution BRS_2024 current_balance.SA
       monthly_sa_contribution,
     years_to_target monthly_sa_contribution FRS_2024 current_balance.SA
       monthly_sa_contribution)

/-- The "Generate Projections" branch of `main` (tab 2): computes the
monthly contribution from the wage and the band's total rate, projects the
future balances, and computes the milestones.  The user-entered current
balances are passed only to `calculate_milestones`; the projection call
receives the Python defaults for the interest rates. -/
noncomputable def mainTab2 (monthly_wage : ℚ) (projection_years : ℕ)
    (salary_increment : ℚ) (age_group : String)
    (current_oa current_sa current_ma : ℚ) :
    Option (List Snapshot × (MilestoneResult × MilestoneResult)) :=
  (CPF_RATES age_group).bind fun r =>
    let monthly_contribution := monthly_wage * r.1
    (calculate_milestones ⟨current_oa, current_sa, current_ma⟩
        monthly_contribution age_group).map fun ms =>
      (calculate_future_balance monthly_contribution projection_years
         salary_increment defaultInterestRates, ms)

/-! ### Lemmas about round-half-to-even over `ℚ` -/

lemma rndHE_le (x : ℚ) : (rndHE x : ℚ) ≤ x + 1/2 := by
  unfold rndHE
  have hfle : (⌊x⌋ : ℚ) ≤ x := Int.floor_le x
  split_ifs with h1 h2 h3
  · linarith
  · push_cast
    linarith
  · linarith
  · push_cast
    have : x - ⌊x⌋ = 1/2 := le_antisymm (not_lt.mp h2) (not_lt.mp h1)
    linarith

lemma le_rndHE (x : ℚ) : x - 1/2 ≤ (rndHE x : ℚ) := by
  unfold rndHE
  have hlt : x < ⌊x⌋ + 1 := Int.lt_floor_add_one x
  split_ifs with h1 h2 h3
  · linarith
  · push_cast
    linarith
  · have : x - ⌊x⌋ = 1/2 := le_antisymm (not_lt.mp h2) (not_lt.mp h1)
    linarith
  · push_cast
    linarith

lemma rndHE_nonneg (x : ℚ) (h : -(1/2) ≤ x) : 0 ≤ rndHE x := by
  have hf : (-1 : ℤ) ≤ ⌊x⌋ := by
    have : ((-1 : ℤ) : ℚ) ≤ x := by push_cast; linarith
    exact_mod_cast (Int.le_floor).mpr this
  unfold rndHE
  have hfle : (⌊x⌋ : ℚ) ≤ x := Int.floor_le x
  split_ifs with h1 h2 h3
  · -- fractional part below one half: the floor must already be ≥ 0
    by_contra hneg
    push_neg at hneg
    have hfm : ⌊x⌋ = -1 := by omega
    rw [hfm] at h1
    push_cast at h1
    linarith
  · omega
  · -- exact tie with an even floor: the floor cannot be -1 (odd)
    by_contra hneg
    push_neg at hneg
    have hfm : ⌊x⌋ = -1 := by omega
    omega
  · omega

lemma rndHE_eq_zero (x : ℚ) (h0 : 0 ≤ x) (h1 : x < 1/2) : rndHE x = 0 := by
  have hf : ⌊x⌋ = 0 := by
    rw [Int.floor_eq_zero_iff]
    constructor
    · exact h0
    · linarith
  unfold rndHE
  rw [hf]
  push_cast
  rw [if_pos (by linarith)]

lemma rndHE_intCast (k : ℤ) : rndHE (k : ℚ) = k := by
  unfold rndHE
  rw [Int.floor_intCast]
  rw [if_pos (by norm_num)]

lemma round2_le (x : ℚ) : round2 x ≤ x + 1/200 := by
  unfold round2
  have := rndHE_le (100 * x)
  linarith

lemma le_round2 (x : ℚ) : x - 1/200 ≤ round2 x := by
  unfold round2
  have := le_rndHE (100 * x)
  linarith

lemma round2_nonneg (x : ℚ) (h : -(1/200) ≤ x) : 0 ≤ round2 x := by
  unfold round2
  have h100 : -(1/2) ≤ 100 * x := by linarith
  have := rndHE_nonneg (100 * x) h100
  positivity

lemma round2_eq_zero (x : ℚ) (h0 : 0 ≤ x) (h1 : x < 1/200) : round2 x = 0 := by
  unfold round2
  rw [rndHE_eq_zero (100 * x) (by linarith) (by linarith)]
  norm_num

lemma round2_cent (k : ℤ) : round2 ((k : ℚ) / 100) = (k : ℚ) / 100 := by
  unfold round2
  rw [show (100 : ℚ) * ((k : ℚ) / 100) = (k : ℚ) by ring, rndHE_intCast]

lemma round2_is_cent (x : ℚ) : ∃ k : ℤ, round2 x = (k : ℚ) / 100 :=
  ⟨rndHE (100 * x), rfl⟩

/-- Evaluation rule for `round2` on concrete inputs that round down. -/
lemma round2_eval (x : ℚ) (k : ℤ) (h1 : (k : ℚ) ≤ 100 * x)
    (h2 : 100 * x < k + 1) (h3 : 100 * x - k < 1/2) :
    round2 x = (k : ℚ) / 100 := by
  have hf : ⌊100 * x⌋ = k := Int.floor_eq_iff.mpr ⟨h1, h2⟩
  unfold round2 rndHE
  rw [hf, if_pos h3]

/-! ### Helper lemmas about the static tables -/

lemma ALLOCATIONS_shares_bounds (band : String) (r : ℚ × ℚ × ℚ)
    (h : ALLOCATIONS band = some r) :
    0 ≤ r.1 ∧ 0 ≤ r.2.1 ∧ r.1 + r.2.1 ≤ 317/1000 := by
  unfold ALLOCATIONS at h
  split_ifs at h <;> (simp only [Option.some.injEq] at h; subst h; norm_num)

lemma get_age_group_mem (today birth_date : Date) :
    get_age_group today birth_date ∈ sevenBands := by
  simp only [get_age_group, sevenBands]
  split_ifs <;> simp

lemma mem_sevenBands_lookup (s : String) (h : s ∈ sevenBands) :
    (CPF_RATES s).isSome = true ∧ (ALLOCATIONS s).isSome = true := by
  fin_cases h <;> exact ⟨rfl, rfl⟩

/-! ### Core reconciliation lemma for `calculate_allocations` -/

lemma alloc_core (a b total : ℚ) (ha : 0 ≤ a) (hb : 0 ≤ b)
    (hab : a + b ≤ 317/1000) (ht : 0 < total) :
    0 ≤ round2 (a * total) ∧ 0 ≤ round2 (b * total) ∧
    0 ≤ round2 (total - round2 (a * total) - round2 (b * total)) ∧
    |round2 (a * total) + round2 (b * total) +
        round2 (total - round2 (a * total) - round2 (b * total)) - total| ≤ 1/200 ∧
    (∀ k : ℤ, total = (k : ℚ) / 100 →
      round2 (a * total) + round2 (b * total) +
        round2 (total - round2 (a * total) - round2 (b * total)) = total) := by
  have hat : 0 ≤ a * total := mul_nonneg ha ht.le
  have hbt : 0 ≤ b * total := mul_nonneg hb ht.le
  have hm0 : 0 ≤ round2 (a * total) := round2_nonneg _ (by linarith)
  have hs0 : 0 ≤ round2 (b * total) := round2_nonneg _ (by linarith)
  have hmle : round2 (a * total) ≤ a * total + 1/200 := round2_le _
  have hsle : round2 (b * total) ≤ b * total + 1/200 := round2_le _
  have ho0 : 0 ≤ round2 (total - round2 (a * total) - round2 (b * total)) := by
    rcases le_or_lt (3/400) total with hbig | hsmall
    · apply round2_nonneg
      have habt : (a + b) * total ≤ (317/1000) * total :=
        mul_le_mul_of_nonneg_right hab ht.le
      nlinarith
    · have hmz : round2 (a * total) = 0 := by
        apply round2_eq_zero _ hat
        have h1 : a * total ≤ (317/1000) * total :=
          mul_le_mul_of_nonneg_right (by linarith) ht.le
        nlinarith
      have hsz : round2 (b * total) = 0 := by
        apply round2_eq_zero _ hbt
        have h1 : b * total ≤ (317/1000) * total :=
          mul_le_mul_of_nonneg_right (by linarith) ht.le
        nlinarith
      rw [hmz, hsz, sub_zero, sub_zero]
      exact round2_nonneg _ (by linarith)
  refine ⟨hm0, hs0, ho0, ?_, ?_⟩
  · have h1 := round2_le (total - round2 (a * total) - round2 (b * total))
    have h2 := le_round2 (total - round2 (a * total) - round2 (b * total))
    rw [abs_le]
    constructor <;> linarith
  · intro k hk
    obtain ⟨j, hj⟩ := round2_is_cent (a * total)
    obtain ⟨l, hl⟩ := round2_is_cent (b * total)
    have hrem : total - round2 (a * total) - round2 (b * total) =
        ((k - j - l : ℤ) : ℚ) / 100 := by
      rw [hj, hl, hk]
      push_cast
      ring
    rw [hrem, round2_cent, ← hrem]
    ring

/-! ### Structural lemmas for the projection loop -/

lemma projLoop_length (rates : InterestRates) (inc : ℚ) :
    ∀ (fuel month : ℕ) (s : ProjState),
      (projLoop rates inc month fuel s).length = fuel := by
  intro fuel
  induction fuel with
  | zero => intro month s; rfl
  | succ n ih => intro month s; simp [projLoop, ih]

lemma projLoop_add (rates : InterestRates) (inc : ℚ) :
    ∀ (a b m : ℕ) (s : ProjState),
      projLoop rates inc m (a + b) s =
        projLoop rates inc m a s ++
          projLoop rates inc (m + a) b (projIter rates inc m a s) := by
  intro a
  induction a with
  | zero =>
      intro b m s
      simp [projLoop, projIter]
  | succ n ih =>
      intro b m s
      have hadd : n + 1 + b = (n + b) + 1 := by omega
      rw [hadd]
      show projLoop rates inc m ((n + b) + 1) s = _
      simp only [projLoop, projIter]
      rw [ih b (m + 1) (projStep rates inc m s)]
      have hmonth : m + (n + 1) = m + 1 + n := by omega
      rw [hmonth]
      simp

lemma map_isSome {α β : Type} (f : α → β) (o : Option α) :
    (o.map f).isSome = o.isSome := by
  cases o <;> rfl

lemma take_length_append {α : Type} (n : ℕ) (l1 l2 : List α)
    (h : l1.length = n) : (l1 ++ l2).take n = l1 := by
  subst h
  exact List.take_left _ _

/-! ### Lemmas about round-half-to-even over `ℝ` -/

lemma rndHE_R_nonneg (x : ℝ) (h : 0 ≤ x) : 0 ≤ rndHE_R x := by
  have hf : (0 : ℤ) ≤ ⌊x⌋ := Int.floor_nonneg.mpr h
  unfold rndHE_R
  split_ifs <;> omega

lemma rndHE_R_le_int (k : ℤ) (x : ℝ) (h : x ≤ k) : rndHE_R x ≤ k := by
  have hfl : ⌊x⌋ ≤ k := by
    have : (⌊x⌋ : ℝ) ≤ (k : ℝ) := le_trans (Int.floor_le x) h
    exact_mod_cast this
  have hfle : (⌊x⌋ : ℝ) ≤ x := Int.floor_le x
  unfold rndHE_R
  split_ifs with h1 h2 h3
  · exact hfl
  · have hstrict : ⌊x⌋ < k := by
      have : (⌊x⌋ : ℝ) < (k : ℝ) := by linarith
      exact_mod_cast this
    omega
  · exact hfl
  · have htie : x - ⌊x⌋ = 1/2 := le_antisymm (not_lt.mp h2) (not_lt.mp h1)
    have hstrict : ⌊x⌋ < k := by
      have : (⌊x⌋ : ℝ) < (k : ℝ) := by linarith
      exact_mod_cast this
    omega

lemma round1_nonneg (y : ℝ) (h : 0 ≤ y) : 0 ≤ round1 y := by
  unfold round1
  have := rndHE_R_nonneg (10 * y) (by linarith)
  positivity

lemma round1_le_100 (y : ℝ) (h : y ≤ 100) : round1 y ≤ 100 := by
  unfold round1
  have h10 : (10 : ℝ) * y ≤ ((1000 : ℤ) : ℝ) := by push_cast; linarith
  have := rndHE_R_le_int 1000 (10 * y) h10
  have hcast : ((rndHE_R (10 * y) : ℤ) : ℝ) ≤ ((1000 : ℤ) : ℝ) := by exact_mod_cast this
  push_cast at hcast
  linarith

/-! ### Claim theorems -/

/-- Claim C8: for every one of the seven age bands, the static rate table
satisfies employeeRate + employerRate = totalRate exactly, and the static
allocation table's medisave + special + ordinary shares sum to 1 within
tolerance 1e-6. -/
theorem rate_allocation_table_invariants (band : String) (r a : ℚ × ℚ × ℚ)
    (hr : CPF_RATES band = some r) (ha : ALLOCATIONS band = some a) :
    r.2.1 + r.2.2 = r.1 ∧ |a.1 + a.2.1 + a.2.2 - 1| ≤ 1/1000000 := by
  unfold CPF_RATES at hr
  unfold ALLOCATIONS at ha
  split_ifs at hr ha <;>
    (simp only [Option.some.injEq] at hr ha; subst hr; subst ha; norm_num)

theorem rate_allocation_table_invariants_witness :
    ((0.37, 0.20, 0.17) : ℚ × ℚ × ℚ).2.1 + ((0.37, 0.20, 0.17) : ℚ × ℚ × ℚ).2.2 =
      ((0.37, 0.20, 0.17) : ℚ × ℚ × ℚ).1 ∧
    |((0.08108, 0.23243, 0.68649) : ℚ × ℚ × ℚ).1 +
        ((0.08108, 0.23243, 0.68649) : ℚ × ℚ × ℚ).2.1 +
        ((0.08108, 0.23243, 0.68649) : ℚ × ℚ × ℚ).2.2 - 1| ≤ 1/1000000 :=
  rate_allocation_table_invariants "35 years and below" _ _ rfl rfl

/-- Claim C10: every band string produced by the age classifier is a key of
both static tables, so the table lookups performed by
`calculate_contributions`, `calculate_allocations` and
`calculate_milestones` on a classifier-produced band all succeed — the
lookup-miss branch (a Python `KeyError`, modelled as `none`) is
unreachable. -/
theorem classifier_band_lookup_total (today birth_date : Date)
    (ow aw ytd total mc : ℚ) (bal : Balances) :
    (CPF_RATES (get_age_group today birth_date)).isSome = true ∧
    (ALLOCATIONS (get_age_group today birth_date)).isSome = true ∧
    (calculate_contributions ow aw (get_age_group today birth_date) ytd).isSome = true ∧
    (calculate_allocations total (get_age_group today birth_date)).isSome = true ∧
    (calculate_milestones bal mc (get_age_group today birth_date)).isSome = true := by
  obtain ⟨h1, h2⟩ :=
    mem_sevenBands_lookup _ (get_age_group_mem today birth_date)
  refine ⟨h1, h2, ?_, ?_, ?_⟩
  · unfold calculate_contributions
    rw [map_isSome]
    exact h1
  · unfold calculate_allocations
    split_ifs
    · rfl
    · rw [map_isSome]
      exact h2
  · unfold calculate_milestones
    rw [map_isSome]
    exact h2

/-- Modelled from the spec (section 4.1): the integer age formula of the Age
Classifier contract. -/
def specAge (today : Date) (birth_date : Date) : ℤ :=
  today.year - birth_date.year -
    (if today.month < birth_date.month ∨
        (today.month = birth_date.month ∧ today.day < birth_date.day)
     then 1 else 0)

/-- Modelled from the spec (sections 4.1 and 8): seven bands with
inclusive upper edges `≤35, ≤45, ≤50, ≤55, ≤60, ≤65`, else the over-65
band, written with both edges of each interval explicit. -/
def classifySpec (today : Date) (birth_date : Date) : String :=
  let age := specAge today birth_date
  if age ≤ 35 then "35 years and below"
  else if 35 < age ∧ age ≤ 45 then "Above 35 to 45 years"
  else if 45 < age ∧ age ≤ 50 then "Above 45 to 50 years"
  else if 50 < age ∧ age ≤ 55 then "Above 50 to 55 years"
  else if 55 < age ∧ age ≤ 60 then "Above 55 to 60 years"
  else if 60 < age ∧ age ≤ 65 then "Above 60 to 65 years"
  else "Above 65 years"

/-- Claim C7: the age classifier computes integer age as
year difference decremented by one exactly when the (month, day) pair of
the evaluation date is lexicographically below that of the birth date, and
maps it by ascending inclusive-upper-edge thresholds to exactly one of the
seven bands; in particular age exactly 35 (e.g. born 1991-01-01, evaluated
2026-10-12) maps to "35 years and below". -/
theorem get_age_group_matches_spec :
    (∀ today birth_date : Date,
      get_age_group today birth_date = classifySpec today birth_date ∧
      get_age_group today birth_date ∈ sevenBands) ∧
    age_on ⟨2026, 10, 12⟩ ⟨1991, 1, 1⟩ = 35 ∧
    get_age_group ⟨2026, 10, 12⟩ ⟨1991, 1, 1⟩ = "35 years and below" := by
  refine ⟨fun today birth_date => ⟨?_, get_age_group_mem today birth_date⟩, by decide, by decide⟩
  have hage : specAge today birth_date = age_on today birth_date := rfl
  simp only [get_age_group, classifySpec, hage]
  generalize age_on today birth_date = a
  split_ifs <;> first | rfl | omega

/-- Claim C2 counterexample: the projection loop's hard-coded split
(0.68649 / 0.23243 / 0.08108) does not agree with the `ALLOCATIONS` ratios
of the band "Above 55 to 60 years" (ordinary share 0.75961). -/
theorem projection_split_band_mismatch_cex :
    ALLOCATIONS "Above 55 to 60 years" = some (0.10577, 0.13462, 0.75961) ∧
    monthlySplit 1 ≠ (1 * 0.75961, 1 * 0.13462, 1 * 0.10577) := by
  refine ⟨rfl, ?_⟩
  simp only [monthlySplit]
  norm_num

/-- Claim C2 amended: the per-account split performed inside the projection
loop equals the split prescribed by `ALLOCATIONS["35 years and below"]` and
therefore agrees with `ALLOCATIONS[band]` exactly for the four bands up to
55 years (which share that ratio triple), not for the three older bands. -/
theorem projection_split_matches_lower_bands (c : ℚ) (band : String)
    (h : band = "35 years and below" ∨ band = "Above 35 to 45 years" ∨
         band = "Above 45 to 50 years" ∨ band = "Above 50 to 55 years") :
    ∃ r, ALLOCATIONS band = some r ∧
      monthlySplit c = (c * r.2.2, c * r.2.1, c * r.1) := by
  rcases h with h | h | h | h <;> subst h <;>
    exact ⟨(0.08108, 0.23243, 0.68649), rfl, rfl⟩

theorem projection_split_matches_lower_bands_witness :
    ∃ r, ALLOCATIONS "Above 50 to 55 years" = some r ∧
      monthlySplit 2 = (2 * r.2.2, 2 * r.2.1, 2 * r.1) :=
  projection_split_matches_lower_bands 2 "Above 50 to 55 years"
    (Or.inr (Or.inr (Or.inr rfl)))

/-- Claim C3: `calculate_future_balance` starts all three account balances
at 0, and in `main` the user-entered current OA/SA/MA balances never affect
the projected series (they are consumed only by the milestone solver). -/
theorem projection_ignores_current_balances :
    (∀ (w : ℚ) (y : ℕ) (inc : ℚ) (band : String) (oa sa ma oa' sa' ma' : ℚ),
      (mainTab2 w y inc band oa sa ma).map Prod.fst =
        (mainTab2 w y inc band oa' sa' ma').map Prod.fst) ∧
    (∀ (c : ℚ) (y : ℕ) (inc : ℚ) (r : InterestRates),
      calculate_future_balance c y inc r = projLoop r inc 0 (y * 12) ⟨0, 0, 0, c⟩) := by
  constructor
  · intro w y inc band oa sa ma oa' sa' ma'
    cases hc : CPF_RATES band with
    | none => simp [mainTab2, hc]
    | some r =>
      cases ha : ALLOCATIONS band with
      | none => simp [mainTab2, hc, calculate_milestones, ha]
      | some al => simp [mainTab2, hc, calculate_milestones, ha]
  · intro c y inc r
    rfl

/-- Claim C9: the projection with `years = 0` returns an empty series, and
for every `N` the series for `years = N + 1` agrees with the series for
`years = N` on the first `N * 12` monthly snapshots. -/
theorem projection_series_agreement :
    (∀ (c inc : ℚ) (r : InterestRates), calculate_future_balance c 0 inc r = []) ∧
    (∀ (c inc : ℚ) (r : InterestRates) (N : ℕ),
      (calculate_future_balance c (N + 1) inc r).take (N * 12) =
        calculate_future_balance c N inc r) := by
  constructor
  · intro c inc r
    rfl
  · intro c inc r N
    unfold calculate_future_balance
    have h12 : (N + 1) * 12 = N * 12 + 12 := by ring
    rw [h12, projLoop_add]
    have hlen : (projLoop r inc 0 (N * 12) ⟨0, 0, 0, c⟩).length = N * 12 :=
      projLoop_length r inc (N * 12) 0 _
    exact take_length_append _ _ _ hlen

/-- Claim C4 counterexample: with a non-positive monthly special-account
contribution but `currentBalance ≥ target`, the solver returns
"Already achieved", not the "unreachable" sentinel, because the
already-achieved test runs first. -/
theorem years_to_target_priority_cex :
    years_to_target 0 102000 200000 0 = MilestoneResult.alreadyAchieved ∧
    MilestoneResult.alreadyAchieved ≠ MilestoneResult.unreachable := by
  constructor
  · unfold years_to_target
    rw [if_pos (by norm_num : (102000 : ℚ) ≤ 200000)]
  · intro h
    exact MilestoneResult.noConfusion h

/-- Claim C4 amended: if the monthly special-account contribution is ≤ 0
and the current balance is strictly below the target, `years_to_target`
returns the "unreachable" sentinel; when the current balance already meets
the target the earlier "Already achieved" branch wins instead. -/
theorem years_to_target_nonpositive_amended
    (msc target current m : ℚ) (hm : msc ≤ 0) (hct : current < target) :
    years_to_target msc target current m = MilestoneResult.unreachable := by
  unfold years_to_target
  rw [if_neg (not_le.mpr hct), if_pos hm]

theorem years_to_target_nonpositive_amended_witness :
    years_to_target 0 1 0 0 = MilestoneResult.unreachable :=
  years_to_target_nonpositive_amended 0 1 0 0 (le_refl 0) (by norm_num)

/-- Evaluation of `calculate_contributions` when the rate lookup succeeds:
the tuple of the source's straight-line arithmetic. -/
lemma calculate_contributions_some (ow aw ytd : ℚ) (band : String)
    (r : ℚ × ℚ × ℚ) (hc : CPF_RATES band = some r) :
    calculate_contributions ow aw band ytd =
      some (r.1 * min ow 6000 +
              r.1 * min aw (max 0 (max 0 (102000 - ytd) - min ow 6000)),
            r.2.1 * min ow 6000 +
              r.2.1 * min aw (max 0 (max 0 (102000 - ytd) - min ow 6000)),
            (r.1 * min ow 6000 +
               r.1 * min aw (max 0 (max 0 (102000 - ytd) - min ow 6000))) -
              (r.2.1 * min ow 6000 +
                 r.2.1 * min aw (max 0 (max 0 (102000 - ytd) - min ow 6000)))) := by
  unfold calculate_contributions ORDINARY_WAGES_CEILING TOTAL_WAGES_CEILING
  rw [hc]
  rfl

/-- Claim C1 counterexample: with `yearToDateWages = 102000` (the annual
ceiling already met), ordinary wages of 6000 in the "35 years and below"
band still produce a contribution of 2220/1200/1020, not 0/0/0: the annual
ceiling caps only the additional wages. -/
theorem calculate_contributions_ytd_exhaustion_cex :
    calculate_contributions 6000 0 "35 years and below" 102000 =
      some (2220, 1200, 1020) ∧ (2220 : ℚ) ≠ 0 := by
  constructor
  · rw [calculate_contributions_some 6000 0 102000 "35 years and below"
        (0.37, 0.20, 0.17) rfl]
    norm_num [min_def, max_def]
  · norm_num

/-- Claim C1 amended: if `yearToDateWages ≥ 102000` (with non-negative wage
inputs) then the capped additional wages are 0, so the result coincides
with the result for `additionalWages = 0`; the claimed all-zero result
holds when the ordinary wages are 0 as well. -/
theorem calculate_contributions_ytd_exhaustion_amended
    (ow aw ytd : ℚ) (band : String)
    (how : 0 ≤ ow) (haw : 0 ≤ aw) (hytd : 102000 ≤ ytd) :
    calculate_contributions ow aw band ytd =
      calculate_contributions ow 0 band ytd ∧
    calculate_contributions 0 aw band ytd =
      (CPF_RATES band).map (fun _ => (0, 0, 0)) := by
  cases hc : CPF_RATES band with
  | none =>
      constructor <;> (unfold calculate_contributions; rw [hc]; rfl)
  | some r =>
      have hmax1 : max 0 (102000 - ytd) = (0 : ℚ) := max_eq_left (by linarith)
      have hminow : (0 : ℚ) ≤ min ow 6000 := le_min how (by norm_num)
      have hcap1 : min aw (max 0 (max 0 (102000 - ytd) - min ow 6000)) = 0 := by
        rw [hmax1]
        rw [max_eq_left (by linarith : 0 - min ow 6000 ≤ (0 : ℚ))]
        exact min_eq_right haw
      have hcap2 : min (0 : ℚ) (max 0 (max 0 (102000 - ytd) - min ow 6000)) = 0 :=
        min_eq_left (le_max_left _ _)
      constructor
      · rw [calculate_contributions_some ow aw ytd band r hc,
            calculate_contributions_some ow 0 ytd band r hc, hcap1, hcap2]
      · rw [calculate_contributions_some 0 aw ytd band r hc]
        have hmin0 : min (0 : ℚ) 6000 = 0 := min_eq_left (by norm_num)
        rw [hmin0, hmax1]
        simp [min_eq_right haw]

theorem calculate_contributions_ytd_exhaustion_amended_witness :
    (calculate_contributions 6000 500 "35 years and below" 102000 =
       calculate_contributions 6000 0 "35 years and below" 102000) ∧
    calculate_contributions 0 500 "35 years and below" 102000 =
      (CPF_RATES "35 years and below").map (fun _ => (0, 0, 0)) :=
  calculate_contributions_ytd_exhaustion_amended 6000 500 102000
    "35 years and below" (by norm_num) (by norm_num) (by norm_num)

/-- Claim C5 counterexample: for `totalContribution = 1.001` (not a whole
number of cents) the three rounded allocation amounts of the
"35 years and below" band sum to 1.00, not to the input 1.001: the final
remainder is itself rounded to 2 decimals, so exact reconciliation fails
off the cent grid. -/
theorem calculate_allocations_exact_sum_cex :
    calculate_allocations (1001/1000) "35 years and below" =
      some (8/100, 23/100, 69/100) ∧
    (8/100 + 23/100 + 69/100 : ℚ) ≠ 1001/1000 := by
  constructor
  · have h1 : round2 ((0.08108 : ℚ) * (1001/1000)) = (8 : ℤ)/100 :=
      round2_eval _ 8 (by norm_num) (by norm_num) (by norm_num)
    have h2 : round2 ((0.23243 : ℚ) * (1001/1000)) = (23 : ℤ)/100 :=
      round2_eval _ 23 (by norm_num) (by norm_num) (by norm_num)
    have h3 : round2 ((1001/1000 : ℚ) - (8 : ℤ)/100 - (23 : ℤ)/100) = (69 : ℤ)/100 :=
      round2_eval _ 69 (by norm_num) (by norm_num) (by norm_num)
    unfold calculate_allocations
    rw [if_neg (by norm_num : ¬(1001/1000 : ℚ) ≤ 0)]
    rw [show ALLOCATIONS "35 years and below" =
          some (0.08108, 0.23243, 0.68649) from rfl]
    simp only [Option.map_some']
    rw [h1, h2, h3]
    norm_num
  · norm_num

/-- Claim C5 amended: for every totalContribution ≥ 0 and every age band,
the three amounts are each ≥ 0 and their sum reconciles to the input up to
the final 2-decimal rounding of the ordinary remainder (within 0.005
always, and exactly whenever the input is a whole number of cents —
in particular for every amount already rounded to 2 decimals). -/
theorem calculate_allocations_reconciliation_amended
    (total : ℚ) (band : String) (r : ℚ × ℚ × ℚ)
    (hr : ALLOCATIONS band = some r) (ht : 0 ≤ total) :
    ∃ m s o, calculate_allocations total band = some (m, s, o) ∧
      0 ≤ m ∧ 0 ≤ s ∧ 0 ≤ o ∧ |m + s + o - total| ≤ 1/200 ∧
      (∀ k : ℤ, total = (k : ℚ) / 100 → m + s + o = total) := by
  rcases eq_or_lt_of_le ht with h0 | hpos
  · refine ⟨0, 0, 0, ?_, le_refl 0, le_refl 0, le_refl 0, ?_, ?_⟩
    · unfold calculate_allocations
      rw [if_pos (by rw [← h0] : total ≤ 0)]
    · rw [← h0]
      norm_num
    · intro k hk
      rw [← h0]
      norm_num
  · obtain ⟨ha, hb, hab⟩ := ALLOCATIONS_shares_bounds band r hr
    obtain ⟨hm0, hs0, ho0, habs, hcent⟩ := alloc_core r.1 r.2.1 total ha hb hab hpos
    refine ⟨_, _, _, ?_, hm0, hs0, ho0, habs, hcent⟩
    unfold calculate_allocations
    rw [if_neg (not_le.mpr hpos), hr]
    rfl

theorem calculate_allocations_reconciliation_amended_witness :
    ∃ m s o, calculate_allocations 1 "Above 65 years" = some (m, s, o) ∧
      0 ≤ m ∧ 0 ≤ s ∧ 0 ≤ o ∧ |m + s + o - 1| ≤ 1/200 ∧
      (∀ k : ℤ, (1 : ℚ) = (k : ℚ) / 100 → m + s + o = 1) :=
  calculate_allocations_reconciliation_amended 1 "Above 65 years"
    (0.16000, 0.00000, 0.84000) rfl (by norm_num)

/-- Claim C6: on the numeric path of the milestone solver (current balance
below target, positive monthly special contribution) the caller receives
either the "unreachable" sentinel or a finite year count lying in
[0, 100]: the `[0, 100]` sanity clamp converts everything else, and in this
real-valued model the logarithmic closed form is total, so no NaN or
infinity can escape. -/
theorem years_to_target_numeric_path_clamped
    (msc target current m : ℚ) (hct : current < target) (hm : 0 < msc) :
    years_to_target msc target current m = MilestoneResult.unreachable ∨
    ∃ y : ℝ, years_to_target msc target current m = MilestoneResult.years y ∧
      0 ≤ y ∧ y ≤ 100 := by
  unfold years_to_target
  rw [if_neg (not_le.mpr hct), if_neg (not_le.mpr hm)]
  dsimp only
  split_ifs with h
  · exact Or.inl rfl
  · push_neg at h
    exact Or.inr ⟨_, rfl, round1_nonneg _ h.1, round1_le_100 _ h.2⟩

theorem years_to_target_numeric_path_clamped_witness :
    years_to_target 1 1 0 1 = MilestoneResult.unreachable ∨
    ∃ y : ℝ, years_to_target 1 1 0 1 = MilestoneResult.years y ∧
      0 ≤ y ∧ y ≤ 100 :=
  years_to_target_numeric_path_clamped 1 1 0 1 (by norm_num) (by norm_num)

end NEWCPF
